import Mathlib

/-!
Verification of the instrumented LLM execution pipeline
(`src/llms/{pricing,token_counter,logger,evaluator,base}.py`) against its
natural-language specification.

Shallow embedding conventions:
* Python `float` arithmetic is modelled with exact rationals (`ℚ`); Python's
  `round(x, n)` is modelled as round-to-nearest on rationals (`roundTo`).
  No claim below depends on a half-way rounding case or on float error.
* Python dicts that the code indexes by string key are modelled as
  association lists (`List (String × _)`) looked up with `List.lookup`.
* A Python function that may raise is modelled as `Except Err _`; a function
  that catches all exceptions and returns `None` is modelled as `Option _`.
* The filesystem (existing log filenames, write success) and the external
  RAGAS engine are modelled as explicit parameters, since they are outside
  the repository.
-/

/-- Python exceptions, abstracted to their message. -/
structure Err where
  msg : String
deriving DecidableEq, Repr

/-- `round(x, d)` from Python, on exact rationals: round `x * 10^d` to the
nearest integer and scale back. -/
def roundTo (d : ℕ) (q : ℚ) : ℚ :=
  ((Rat.floor (q * (10 : ℚ) ^ d + 1 / 2) : ℚ)) / (10 : ℚ) ^ d

/-! ## `src/llms/token_counter.py` -/

/-- `estimate_tokens(text)`: `0` for falsy (empty) text, else
`max(1, len(text) // 4)`. -/
def estimate_tokens (text : String) : ℕ :=
  if text = "" then 0
  else max 1 (text.length / 4)

/-! ## `src/llms/pricing.py` -/

/-- The static `MODEL_PRICING` table: model identifier ↦ (input price,
output price), in USD per one million tokens. -/
def MODEL_PRICING : List (String × ℚ × ℚ) :=
  [ ("gpt-4-turbo", 10, 30),
    ("gpt-4", 30, 60),
    ("gpt-3.5-turbo", 1/2, 3/2),
    ("gpt-4o", 5, 15),
    ("gpt-4o-mini", 3/20, 3/5),
    ("claude-sonnet-4-20250514", 3, 15),
    ("claude-opus-3-20240229", 15, 75),
    ("claude-sonnet-3-5-20240229", 3, 15),
    ("claude-haiku-3-20240307", 1/4, 5/4),
    ("gemini-1.5-pro", 5/4, 5),
    ("gemini-1.5-flash", 3/40, 3/10),
    ("gemini-pro", 1/2, 3/2),
    ("deepseek-ai/DeepSeek-R1:novita", 0, 0),
    ("default", 0, 0) ]

/-- The `CostBreakdown` dict returned by `calculate_cost`. -/
structure CostBreakdown where
  input_cost : ℚ
  output_cost : ℚ
  total_cost : ℚ
  currency : String
  pricing_available : Bool
deriving DecidableEq, Repr

/-- `CostCalculator.calculate_cost(model, input_tokens, output_tokens)`:
look the model up in `MODEL_PRICING`, falling back to the table's
`"default"` entry; compute per-million-token costs and round each to six
decimal places.  Total on all inputs (the Python body can raise only on
negative-free dict access, and all accesses are `.get` with defaults). -/
def calculate_cost (model : String) (input_tokens output_tokens : ℕ) :
    CostBreakdown :=
  let pricing_available := (MODEL_PRICING.lookup model).isSome
  let pricing :=
    (MODEL_PRICING.lookup model).getD ((MODEL_PRICING.lookup "default").getD (0, 0))
  let input_cost : ℚ := ((input_tokens : ℚ) / 1000000) * pricing.1
  let output_cost : ℚ := ((output_tokens : ℚ) / 1000000) * pricing.2
  let total_cost : ℚ := input_cost + output_cost
  { input_cost := roundTo 6 input_cost,
    output_cost := roundTo 6 output_cost,
    total_cost := roundTo 6 total_cost,
    currency := "USD",
    pricing_available := pricing_available }

/-! ### Helper lemmas about pricing -/

/-- Every price pair in the static table is componentwise non-negative. -/
lemma MODEL_PRICING_nonneg :
    ∀ p ∈ MODEL_PRICING, 0 ≤ p.2.1 ∧ 0 ≤ p.2.2 := by
  intro p hp
  fin_cases hp <;> exact ⟨by norm_num, by norm_num⟩

/-- A successful association-list lookup returns a value of the list. -/
lemma lookup_mem {α β : Type} [BEq α] [LawfulBEq α] {l : List (α × β)}
    {k : α} {v : β} (h : l.lookup k = some v) : (k, v) ∈ l := by
  induction l with
  | nil => simp [List.lookup] at h
  | cons hd tl ih =>
    obtain ⟨a, b⟩ := hd
    by_cases hk : k == a
    · have ha : k = a := eq_of_beq hk
      subst ha
      simp [List.lookup] at h
      subst h
      exact List.mem_cons_self _ _
    · simp only [List.lookup, hk] at h
      exact List.mem_cons_of_mem _ (ih h)

/-- Rounding to `d` decimal places preserves non-negativity. -/
lemma roundTo_nonneg {d : ℕ} {q : ℚ} (h : 0 ≤ q) : 0 ≤ roundTo d q := by
  unfold roundTo
  apply div_nonneg _ (by positivity)
  have h1 : (0 : ℚ) ≤ q * (10 : ℚ) ^ d + 1 / 2 := by positivity
  have h2 : (0 : ℤ) ≤ Rat.floor (q * (10 : ℚ) ^ d + 1 / 2) :=
    Rat.le_floor.mpr (by exact_mod_cast h1)
  exact_mod_cast h2

/-- `Rat.floor` agrees with the floor of the `FloorRing ℚ` instance (which
`norm_num` can evaluate). -/
lemma ratfloor_eq (q : ℚ) : Rat.floor q = ⌊q⌋ := rfl

/-- `roundTo` at zero is zero. -/
lemma roundTo_zero (d : ℕ) : roundTo d 0 = 0 := by
  norm_num [roundTo, ratfloor_eq]

/-- The fallback entry `"default"` is itself a key of the price table,
with zero prices. -/
lemma lookup_default : MODEL_PRICING.lookup "default" = some (0, 0) := by
  decide

/-! ## Claim theorems: token counter and cost calculator -/

/-- C9: for every string `text`, `estimate_tokens text = 0` iff `text` is
empty, and `estimate_tokens text ≥ 1` for every non-empty `text`. -/
theorem C9_estimate_tokens_zero_iff_empty (text : String) :
    (estimate_tokens text = 0 ↔ text = "") ∧
    (text ≠ "" → 1 ≤ estimate_tokens text) := by
  constructor
  · constructor
    · intro h
      by_contra hne
      simp only [estimate_tokens, if_neg hne] at h
      omega
    · intro h
      simp [estimate_tokens, h]
  · intro h
    simp only [estimate_tokens, if_neg h]
    omega

/-- Witness for C9 at the concrete text `"abcd"`. -/
theorem C9_estimate_tokens_zero_iff_empty_witness :
    ("abcd" : String) ≠ "" ∧ 1 ≤ estimate_tokens "abcd" :=
  ⟨by decide, (C9_estimate_tokens_zero_iff_empty "abcd").2 (by decide)⟩

/-- C3: for every model string and all token counts, `calculate_cost`
returns non-negative input, output and total cost.  (The Lean embedding is
a total function, reflecting that the Python body indexes only via `.get`
with defaults and so cannot raise; the costs are exact rationals, hence
finite.) -/
theorem C3_calculate_cost_nonneg (model : String)
    (input_tokens output_tokens : ℕ) :
    0 ≤ (calculate_cost model input_tokens output_tokens).input_cost ∧
    0 ≤ (calculate_cost model input_tokens output_tokens).output_cost ∧
    0 ≤ (calculate_cost model input_tokens output_tokens).total_cost := by
  rcases h : MODEL_PRICING.lookup model with _ | v
  · simp only [calculate_cost, h, lookup_default, Option.getD_none,
      Option.getD_some]
    norm_num [roundTo_zero]
  · obtain ⟨h1, h2⟩ := MODEL_PRICING_nonneg _ (lookup_mem h)
    have hi : (0 : ℚ) ≤ ((input_tokens : ℚ) / 1000000) * v.1 :=
      mul_nonneg (div_nonneg (Nat.cast_nonneg _) (by norm_num)) h1
    have ho : (0 : ℚ) ≤ ((output_tokens : ℚ) / 1000000) * v.2 :=
      mul_nonneg (div_nonneg (Nat.cast_nonneg _) (by norm_num)) h2
    simp only [calculate_cost, h, Option.getD_some]
    exact ⟨roundTo_nonneg hi, roundTo_nonneg ho,
      roundTo_nonneg (add_nonneg hi ho)⟩

/-- C4: for every model absent from the price table, `calculate_cost`
uses the zero-priced default entry: all costs are `0` and
`pricing_available` is `false`. -/
theorem C4_unknown_model_zero_cost (model : String)
    (input_tokens output_tokens : ℕ)
    (h : MODEL_PRICING.lookup model = none) :
    calculate_cost model input_tokens output_tokens =
      { input_cost := 0, output_cost := 0, total_cost := 0,
        currency := "USD", pricing_available := false } := by
  simp only [calculate_cost, h, lookup_default, Option.getD_none,
    Option.getD_some, Option.isSome_none]
  norm_num [roundTo_zero]

/-- Witness for C4: the scenario `calculate_cost("unknown-model-xyz", 100,
100)` returns all-zero costs and `pricing_available = false`. -/
theorem C4_unknown_model_zero_cost_witness :
    MODEL_PRICING.lookup "unknown-model-xyz" = none ∧
    calculate_cost "unknown-model-xyz" 100 100 =
      { input_cost := 0, output_cost := 0, total_cost := 0,
        currency := "USD", pricing_available := false } :=
  ⟨by decide, C4_unknown_model_zero_cost "unknown-model-xyz" 100 100 (by decide)⟩

/-- C10: calling `calculate_cost` with the literal model string
`"default"` reports `pricing_available = true` with zero costs, because
the fallback entry is itself a key of the table; and in general
`pricing_available` is `false` exactly for model strings absent from the
table. -/
theorem C10_default_model_is_priced (input_tokens output_tokens : ℕ) :
    calculate_cost "default" input_tokens output_tokens =
      { input_cost := 0, output_cost := 0, total_cost := 0,
        currency := "USD", pricing_available := true } ∧
    (∀ (model : String) (i o : ℕ),
      (calculate_cost model i o).pricing_available = false ↔
        MODEL_PRICING.lookup model = none) := by
  constructor
  · simp only [calculate_cost, lookup_default, Option.getD_some,
      Option.isSome_some]
    norm_num [roundTo_zero]
  · intro model i o
    cases h : MODEL_PRICING.lookup model <;> simp [calculate_cost, h]

/-! ## `src/llms/logger.py` -/

/-- A `datetime` instant, with exactly the fields the logger formats. -/
structure Timestamp where
  year : ℕ
  month : ℕ
  day : ℕ
  hour : ℕ
  minute : ℕ
  second : ℕ
  microsecond : ℕ
deriving DecidableEq, Repr

/-- Zero-pad the decimal representation of `n` to width `w`, as
`strftime` does for its numeric fields. -/
def pad (w n : ℕ) : String :=
  let s := toString n
  String.mk (List.replicate (w - s.length) '0') ++ s

/-- `timestamp.strftime("%Y-%m-%d-%H%M%S")`. -/
def Timestamp.timeStr (t : Timestamp) : String :=
  pad 4 t.year ++ "-" ++ pad 2 t.month ++ "-" ++ pad 2 t.day ++ "-" ++
    pad 2 t.hour ++ pad 2 t.minute ++ pad 2 t.second

/-- `timestamp.strftime("%f")`: microseconds, six digits. -/
def Timestamp.microStr (t : Timestamp) : String :=
  pad 6 t.microsecond

/-- One Python `str.replace(old, new)` call in which `old` is a single
character and `new` is empty (`none`) or a single character (`some c`):
equivalently a per-character filter/map. -/
def replaceChar (old : Char) (new : Option Char) (s : List Char) : List Char :=
  s.filterMap (fun c => if c = old then new else some c)

/-- The model-slug computation of `ExecutionLogger._generate_filename`:
`model.replace('.', '').replace(':', '-').replace('/', '-')
.replace(' ', '-').lower()`.  The four `replace` calls commute with being
done per character because each pattern is a single character and no
replacement output contains a later pattern. -/
def model_slug (model : String) : String :=
  String.mk
    (((((model.data.filterMap (fun c => if c = '.' then none else some c))
      |> replaceChar ':' (some '-'))
      |> replaceChar '/' (some '-'))
      |> replaceChar ' ' (some '-')).map Char.toLower)

/-- `ExecutionLogger._generate_filename(model, timestamp)`; `existing`
models the set of filenames already present in the log directory (the
`log_file.exists()` check). -/
def generate_filename (existing : List String) (model : String)
    (timestamp : Timestamp) : String :=
  let slug := model_slug model
  let time_str := timestamp.timeStr
  let filename := slug ++ "-" ++ time_str ++ ".json"
  if filename ∈ existing then
    slug ++ "-" ++ time_str ++ "-" ++ timestamp.microStr ++ ".json"
  else
    filename

/-- The provider metadata dict (`get_metadata()`), with every key the
logger touches; `none` models an absent key. -/
structure ProviderMetadata where
  model : Option String
  provider : Option String
  temperature : Option ℚ
  max_tokens : Option ℕ
  vendor : Option String
  type : Option String
deriving DecidableEq, Repr

/-- The `log_data` document `log_execution` serializes: one JSON record
per execution.  `tokens` is kept as the key-indexed dict the caller
passed (the providers' `get_usage_info()` dicts use the keys
`input_tokens` / `output_tokens` / `total_tokens`). -/
structure LogData where
  timestamp : Timestamp
  model : String
  provider : String
  prompt_user : String
  prompt_system : Option String
  response : String
  tokens : List (String × ℕ)
  cost : CostBreakdown
  latency_ms : ℚ
  meta_temperature : Option ℚ
  meta_max_tokens : Option ℕ
  meta_vendor : Option String
  meta_type : Option String
deriving DecidableEq, Repr

/-- `ExecutionLogger.log_execution(prompt, response, metadata, tokens,
cost, latency)`.  `ts` stands for `datetime.now()`, `existing` for the
log directory contents and `write_ok` for the success of the file write.
The whole Python body is wrapped in `try/except → None`; the two
operations that can raise are the `metadata["model"]` access and the
write, so the embedding returns `none` in exactly those cases, and
otherwise the generated filename together with the record written. -/
def log_execution (existing : List String) (write_ok : Bool)
    (ts : Timestamp) (prompt_user : String) (prompt_system : Option String)
    (response : String) (metadata : ProviderMetadata)
    (tokens : List (String × ℕ)) (cost : CostBreakdown) (latency : ℚ) :
    Option (String × LogData) :=
  match metadata.model with
  | none => none
  | some m =>
    let filename := generate_filename existing m ts
    let log_data : LogData :=
      { timestamp := ts,
        model := metadata.model.getD "unknown",
        provider := metadata.provider.getD "unknown",
        prompt_user := prompt_user,
        prompt_system := prompt_system,
        response := response,
        tokens := tokens,
        cost := cost,
        latency_ms := roundTo 2 latency,
        meta_temperature := metadata.temperature,
        meta_max_tokens := metadata.max_tokens,
        meta_vendor := metadata.vendor,
        meta_type := metadata.type }
    if write_ok then some (filename, log_data) else none

/-- The dict returned by `ExecutionLogger.get_log_stats`. -/
structure LogStats where
  total_logs : ℕ
  total_cost : ℚ
  total_tokens : ℕ
  providers_used : List String
deriving DecidableEq, Repr

/-- `ExecutionLogger.get_log_stats()`: the log directory is modelled as
the list of its `*.json` files, where a `none` entry is a file whose
open or JSON parse raises (skipped by the per-file `except: continue`).
Note the token sum reads the key `"total"` of each record's `tokens`
dict, exactly as `data.get("tokens", {}).get("total", 0)` does. -/
def get_log_stats (files : List (Option LogData)) : LogStats :=
  let parsed := files.filterMap id
  { total_logs := files.length,
    total_cost := roundTo 4 (parsed.map (fun d => d.cost.total_cost)).sum,
    total_tokens := (parsed.map (fun d => (d.tokens.lookup "total").getD 0)).sum,
    providers_used := (parsed.map (fun d => d.provider)).dedup.insertionSort (· ≤ ·) }

/-! ## Claim theorems: execution logger -/

/-- The slug C6 describes, written from the claim's words for comparison
with the code: lowercase, with punctuation characters (among those the
code touches: `.`, `:`, `/`, space) replaced with hyphens. -/
def C6_claim_slug (model : String) : String :=
  String.mk ((model.data.map (fun c =>
    if c = '.' ∨ c = ':' ∨ c = '/' ∨ c = ' ' then '-' else c)).map Char.toLower)

/-- A single pass over the characters equivalent to the code's slug:
periods are dropped, colon / slash / space become hyphens, everything is
lowercased. -/
def slugChar (c : Char) : Option Char :=
  if c = '.' then none
  else if c = ':' ∨ c = '/' ∨ c = ' ' then some '-'
  else some c.toLower

/-- The chained `replace` calls of `model_slug` amount to the single
per-character pass `slugChar`. -/
lemma model_slug_chars (model : String) :
    model_slug model = String.mk (model.data.filterMap slugChar) := by
  unfold model_slug replaceChar
  rw [List.filterMap_filterMap, List.filterMap_filterMap,
    List.filterMap_filterMap, List.map_filterMap]
  refine congrArg String.mk
    (congrArg (fun f => List.filterMap f model.data) (funext fun c => ?_))
  by_cases h1 : c = '.'
  · simp [h1, slugChar]
  · by_cases h2 : c = ':'
    · simp [h1, h2, slugChar, show (':' : Char) ≠ '.' from by decide]
    · by_cases h3 : c = '/'
      · simp [h1, h2, h3, slugChar, show ('/' : Char) ≠ '.' from by decide,
          show ('/' : Char) ≠ ':' from by decide]
      · by_cases h4 : c = ' '
        · simp [h1, h2, h3, h4, slugChar,
            show (' ' : Char) ≠ '.' from by decide,
            show (' ' : Char) ≠ ':' from by decide,
            show (' ' : Char) ≠ '/' from by decide]
        · simp [h1, h2, h3, h4, slugChar]

/-- C6 counterexample: for `model = "gpt-3.5-turbo"` the code removes the
period instead of replacing punctuation with a hyphen, so the generated
filename is not the one the claim's slug rule predicts. -/
theorem C6_counterexample :
    generate_filename [] "gpt-3.5-turbo" ⟨2025, 1, 10, 12, 0, 0, 123456⟩ =
      "gpt-35-turbo-2025-01-10-120000.json" ∧
    C6_claim_slug "gpt-3.5-turbo" ++ "-" ++
        Timestamp.timeStr ⟨2025, 1, 10, 12, 0, 0, 123456⟩ ++ ".json" =
      "gpt-3-5-turbo-2025-01-10-120000.json" ∧
    ("gpt-35-turbo-2025-01-10-120000.json" : String) ≠
      "gpt-3-5-turbo-2025-01-10-120000.json" := by
  refine ⟨by decide, by decide, by decide⟩

/-- C6 amended: the filename is
`{model-slug}-{YYYY-MM-DD-HHMMSS}.json` — where the slug drops periods,
replaces colons, slashes and spaces with hyphens, and lowercases — and
when that name already exists in the log directory the six-digit
microseconds field is appended before the extension. -/
theorem C6_filename_format (existing : List String) (model : String)
    (ts : Timestamp) :
    model_slug model = String.mk (model.data.filterMap slugChar) ∧
    (model_slug model ++ "-" ++ ts.timeStr ++ ".json" ∉ existing →
      generate_filename existing model ts =
        model_slug model ++ "-" ++ ts.timeStr ++ ".json") ∧
    (model_slug model ++ "-" ++ ts.timeStr ++ ".json" ∈ existing →
      generate_filename existing model ts =
        model_slug model ++ "-" ++ ts.timeStr ++ "-" ++ ts.microStr ++ ".json") := by
  refine ⟨model_slug_chars model, ?_, ?_⟩
  · intro h
    simp only [generate_filename, if_neg h]
  · intro h
    simp only [generate_filename, if_pos h]

/-- Witness for C6 (amended) at a concrete model and timestamp, empty
log directory. -/
theorem C6_filename_format_witness :
    ("gpt-4-2025-01-10-120000.json" : String) ∉ ([] : List String) ∧
    generate_filename [] "gpt-4" ⟨2025, 1, 10, 12, 0, 0, 7⟩ =
      "gpt-4-2025-01-10-120000.json" := by
  refine ⟨by decide, ?_⟩
  have h := (C6_filename_format [] "gpt-4" ⟨2025, 1, 10, 12, 0, 0, 7⟩).2.1
    (by decide)
  rw [h]
  decide

/-- C7: `log_execution` always returns either a filename handle or
`none` (the embedding is a total function — the Python body catches every
exception); it returns `none` whenever building the record fails (the
`metadata["model"]` access raises) or the write fails, and a handle is
returned only when both succeeded. -/
theorem C7_log_execution_none_on_failure (existing : List String)
    (write_ok : Bool) (ts : Timestamp) (pu : String) (ps : Option String)
    (resp : String) (md : ProviderMetadata) (tokens : List (String × ℕ))
    (cost : CostBreakdown) (latency : ℚ) :
    (md.model = none →
      log_execution existing write_ok ts pu ps resp md tokens cost latency
        = none) ∧
    (write_ok = false →
      log_execution existing write_ok ts pu ps resp md tokens cost latency
        = none) ∧
    (∀ r,
      log_execution existing write_ok ts pu ps resp md tokens cost latency
          = some r →
      write_ok = true ∧ md.model ≠ none) := by
  refine ⟨?_, ?_, ?_⟩
  · intro h
    simp [log_execution, h]
  · intro h
    cases hm : md.model <;> simp [log_execution, hm, h]
  · intro r h
    cases hm : md.model with
    | none => simp [log_execution, hm] at h
    | some m =>
      cases hw : write_ok with
      | false => simp [log_execution, hm, hw] at h
      | true => exact ⟨rfl, by simp [hm]⟩

/-- Witness for C7 at a concrete failed write. -/
theorem C7_log_execution_none_on_failure_witness :
    log_execution [] false ⟨2025, 1, 10, 12, 0, 0, 0⟩ "q" none "r"
      ⟨some "gpt-4", some "openai", none, none, none, none⟩ []
      ⟨0, 0, 0, "USD", true⟩ 0 = none :=
  (C7_log_execution_none_on_failure [] false ⟨2025, 1, 10, 12, 0, 0, 0⟩ "q"
    none "r" ⟨some "gpt-4", some "openai", none, none, none, none⟩ []
    ⟨0, 0, 0, "USD", true⟩ 0).2.1 rfl

/-- The record `log_execution` writes for a normal call: the provider
token dict uses the keys `input_tokens` / `output_tokens` /
`total_tokens` (the shape every `get_usage_info` in the repo returns). -/
def C5_stored : Option (String × LogData) :=
  log_execution [] true ⟨2025, 1, 10, 12, 0, 0, 0⟩ "q" none "resp"
    ⟨some "gpt-4", some "openai", some (1/10), some 4096, some "openai",
      some "chat"⟩
    [("input_tokens", 10), ("output_tokens", 20), ("total_tokens", 30)]
    (calculate_cost "gpt-4" 10 20) 5

/-- C5 failing input: a log directory holding exactly one record that
`log_execution` itself wrote, with 30 total tokens.  `get_log_stats`
reports `total_tokens = 0` because it reads the key `"total"`, which the
stored records do not have (they store `"total_tokens"`), so the claim's
"summed token counts of the stored records" (30) is not returned. -/
theorem C5_stats_reads_missing_token_key :
    (get_log_stats [C5_stored.map Prod.snd]).total_logs = 1 ∧
    (get_log_stats [C5_stored.map Prod.snd]).total_tokens = 0 ∧
    (C5_stored.map (fun r => (r.2.tokens.lookup "total_tokens").getD 0))
      = some 30 := by
  refine ⟨rfl, by decide, by decide⟩

/-! ## `src/llms/evaluator.py` -/

/-- Python `str.strip()`: drop leading and trailing whitespace. -/
def strip (s : String) : String :=
  String.mk
    (((s.data.dropWhile Char.isWhitespace).reverse.dropWhile
        Char.isWhitespace).reverse)

/-- Truthiness of `x and x.strip()` for an optional string `x`: present
and non-blank. -/
def strip_truthy (o : Option String) : Bool :=
  match o with
  | none => false
  | some s => strip s != ""

/-- The result dict of `evaluate_response`. -/
structure EvalResult where
  relevance : Option ℚ
  coherence : Option ℚ
  correctness : Option ℚ
  context_quality : Option ℚ
  overall_score : Option ℚ
  error : Option String
  metrics_used : List String
deriving DecidableEq, Repr

/-- The all-null/error result shape (evaluator.py lines 193–201, 253–261
and 287–295, which differ only in the message). -/
def errorResult (msg : String) : EvalResult :=
  { relevance := none, coherence := none, correctness := none,
    context_quality := none, overall_score := none,
    error := some msg, metrics_used := [] }

/-- The combined outcome of the call into the external RAGAS engine and
the result-shape conversion of evaluator.py lines 156–185: the
`self.evaluate(...)` call raised (`raised`, caught by the outer
`except`); or it returned a result object whose conversion to a dict
itself raised, upon which the code substitutes the last-resort dict
`{"answer_relevancy": 0.0}` (`unparsable`); or a score dict was
extracted (`parsed`). -/
inductive EngineOutcome where
  | raised (msg : String)
  | unparsable
  | parsed (scores : List (String × ℚ))
deriving DecidableEq, Repr

/-- evaluator.py lines 187–249: extract the scores of the metrics that
were both enabled by the optional inputs and present in the converted
dict; `overall_score` is the mean of the raw scores collected in
`scores_for_average`; exposed scores are rounded to 3 decimals. -/
def evalScores (has_context has_ground_truth : Bool)
    (results_dict : List (String × ℚ)) : EvalResult :=
  let relevance_score : ℚ := (results_dict.lookup "answer_relevancy").getD 0
  if relevance_score = 0 ∧ results_dict.lookup "answer_relevancy" = none then
    errorResult
      "RAGAS evaluation failed - no valid scores produced. Check OpenAI API key and logs."
  else
    let coherence_score : Option ℚ :=
      if has_context ∧ (results_dict.lookup "faithfulness").isSome then
        some ((results_dict.lookup "faithfulness").getD 0)
      else none
    let correctness_score : Option ℚ :=
      if has_ground_truth ∧ (results_dict.lookup "answer_correctness").isSome then
        some ((results_dict.lookup "answer_correctness").getD 0)
      else none
    let context_quality_score : Option ℚ :=
      if has_context ∧ has_ground_truth ∧
          (results_dict.lookup "context_precision").isSome then
        some ((results_dict.lookup "context_precision").getD 0)
      else none
    let scores_for_average : List ℚ :=
      [relevance_score] ++ coherence_score.toList ++ correctness_score.toList
        ++ context_quality_score.toList
    let metrics_used : List String :=
      ["answer_relevancy"]
        ++ (if coherence_score.isSome then ["faithfulness"] else [])
        ++ (if correctness_score.isSome then ["answer_correctness"] else [])
        ++ (if context_quality_score.isSome then ["context_precision"] else [])
    let overall_score : ℚ := scores_for_average.sum / scores_for_average.length
    { relevance := some (roundTo 3 relevance_score),
      coherence := coherence_score.map (roundTo 3),
      correctness := correctness_score.map (roundTo 3),
      context_quality := context_quality_score.map (roundTo 3),
      overall_score := some (roundTo 3 overall_score),
      error := none,
      metrics_used := metrics_used }

/-- `RAGASEvaluator.evaluate_response(prompt, response, context,
ground_truth)`, the engine call abstracted into `engine`.  The outer
`except` turns a raised engine call into the error form; a conversion
failure substitutes the last-resort dict; otherwise the scores are
extracted by `evalScores`.  Total: nothing escapes this boundary. -/
def RAGASEvaluator.evaluate_response (prompt response : String)
    (context ground_truth : Option String) (engine : EngineOutcome) :
    EvalResult :=
  let has_context := strip_truthy context
  let has_ground_truth := strip_truthy ground_truth
  match engine with
  | .raised msg => errorResult msg
  | .unparsable => evalScores has_context has_ground_truth
      [("answer_relevancy", 0)]
  | .parsed d => evalScores has_context has_ground_truth d

/-- Module-level `evaluate_response` (evaluator.py lines 264–295):
construct a `RAGASEvaluator` — which can raise, e.g. on missing RAGAS
dependencies (`init`) — and delegate; on construction failure return the
initialization error form. -/
def evaluate_response (init : Except String Unit) (prompt response : String)
    (context ground_truth : Option String) (engine : EngineOutcome) :
    EvalResult :=
  match init with
  | .error e =>
      errorResult ("Evaluator initialization failed: " ++ e)
  | .ok _ =>
      RAGASEvaluator.evaluate_response prompt response context ground_truth
        engine

/-! ## Claim theorems: evaluation selector -/

/-- C2: metric-set law of `RAGASEvaluator.evaluate_response` on the
success path (the engine returned a parsed score dict containing the
requested metrics).  With neither context nor ground truth,
`metrics_used` is exactly `["answer_relevancy"]` and the other three
metric fields are `null`, with `overall_score` the mean of the single
computed metric; with both supplied non-blank and all four scores
returned, all four fields are populated and `overall_score` is the
unweighted arithmetic mean of the four raw scores (each field rounded to
3 decimals, the claim's rounding tolerance). -/
theorem C2_metric_selection (prompt response : String)
    (d : List (String × ℚ)) (rq : ℚ)
    (hr : d.lookup "answer_relevancy" = some rq) :
    ((RAGASEvaluator.evaluate_response prompt response none none
        (.parsed d)).metrics_used = ["answer_relevancy"] ∧
      (RAGASEvaluator.evaluate_response prompt response none none
        (.parsed d)).relevance = some (roundTo 3 rq) ∧
      (RAGASEvaluator.evaluate_response prompt response none none
        (.parsed d)).coherence = none ∧
      (RAGASEvaluator.evaluate_response prompt response none none
        (.parsed d)).correctness = none ∧
      (RAGASEvaluator.evaluate_response prompt response none none
        (.parsed d)).context_quality = none ∧
      (RAGASEvaluator.evaluate_response prompt response none none
        (.parsed d)).overall_score = some (roundTo 3 (rq / 1))) ∧
    (∀ (ctx gt : String), strip ctx ≠ "" → strip gt ≠ "" →
      ∀ (fq cq pq : ℚ),
        d.lookup "faithfulness" = some fq →
        d.lookup "answer_correctness" = some cq →
        d.lookup "context_precision" = some pq →
        (RAGASEvaluator.evaluate_response prompt response (some ctx)
            (some gt) (.parsed d)).metrics_used =
          ["answer_relevancy", "faithfulness", "answer_correctness",
            "context_precision"] ∧
        (RAGASEvaluator.evaluate_response prompt response (some ctx)
            (some gt) (.parsed d)).relevance = some (roundTo 3 rq) ∧
        (RAGASEvaluator.evaluate_response prompt response (some ctx)
            (some gt) (.parsed d)).coherence = some (roundTo 3 fq) ∧
        (RAGASEvaluator.evaluate_response prompt response (some ctx)
            (some gt) (.parsed d)).correctness = some (roundTo 3 cq) ∧
        (RAGASEvaluator.evaluate_response prompt response (some ctx)
            (some gt) (.parsed d)).context_quality = some (roundTo 3 pq) ∧
        (RAGASEvaluator.evaluate_response prompt response (some ctx)
            (some gt) (.parsed d)).overall_score =
          some (roundTo 3 ((rq + fq + cq + pq) / 4))) := by
  constructor
  · have hne : ¬ (((d.lookup "answer_relevancy").getD 0 = 0) ∧
        d.lookup "answer_relevancy" = none) := by
      rw [hr]; simp
    simp only [RAGASEvaluator.evaluate_response, strip_truthy, evalScores,
      if_neg hne, hr]
    simp [List.sum_cons]
  · intro ctx gt hctx hgt fq cq pq hf hc hp
    have hctx' : strip_truthy (some ctx) = true := by
      simp [strip_truthy, hctx]
    have hgt' : strip_truthy (some gt) = true := by
      simp [strip_truthy, hgt]
    have hne : ¬ (((d.lookup "answer_relevancy").getD 0 = 0) ∧
        d.lookup "answer_relevancy" = none) := by
      rw [hr]; simp
    simp only [RAGASEvaluator.evaluate_response, hctx', hgt', evalScores,
      if_neg hne, hr, hf, hc, hp]
    norm_num [Option.toList]
    ring_nf
    simp

/-- A concrete parsed engine score dict for the C2 witness. -/
def C2_d : List (String × ℚ) :=
  [("answer_relevancy", 4/5), ("faithfulness", 3/5),
    ("answer_correctness", 1), ("context_precision", 2/5)]

/-- Witness for C2 at a concrete parsed score dict, context and ground
truth. -/
theorem C2_metric_selection_witness :
    C2_d.lookup "answer_relevancy" = some (4/5) ∧
    strip "ctx" ≠ "" ∧ strip "gt" ≠ "" ∧
    C2_d.lookup "faithfulness" = some (3/5) ∧
    C2_d.lookup "answer_correctness" = some 1 ∧
    C2_d.lookup "context_precision" = some (2/5) ∧
    (RAGASEvaluator.evaluate_response "q" "a" none none
        (.parsed C2_d)).metrics_used = ["answer_relevancy"] ∧
    (RAGASEvaluator.evaluate_response "q" "a" (some "ctx") (some "gt")
        (.parsed C2_d)).metrics_used =
      ["answer_relevancy", "faithfulness", "answer_correctness",
        "context_precision"] :=
  ⟨rfl, by decide, by decide, rfl, rfl, rfl,
    (C2_metric_selection "q" "a" C2_d (4/5) rfl).1.1,
    ((C2_metric_selection "q" "a" C2_d (4/5) rfl).2 "ctx" "gt" (by decide)
      (by decide) (3/5) 1 (2/5) rfl rfl rfl).1⟩

/-- C8 counterexample: when the engine returns a result whose conversion
yields no parsable scores at all, the code substitutes the last-resort
dict `{"answer_relevancy": 0.0}` and returns a success-shaped result —
relevance and overall_score `0.0` and `error` absent — not the
all-null/error form the claim requires. -/
theorem C8_counterexample :
    (RAGASEvaluator.evaluate_response "q" "a" none none
        .unparsable).error = none ∧
    (RAGASEvaluator.evaluate_response "q" "a" none none
        .unparsable).relevance = some 0 ∧
    (RAGASEvaluator.evaluate_response "q" "a" none none
        .unparsable).overall_score = some 0 ∧
    (RAGASEvaluator.evaluate_response "q" "a" none none
        .unparsable).metrics_used = ["answer_relevancy"] := by
  have h0 : roundTo 3 ((0 : ℚ) / 1) = 0 := by
    norm_num [roundTo_zero]
  refine ⟨?_, ?_, ?_, ?_⟩ <;>
    simp [RAGASEvaluator.evaluate_response, evalScores, strip_truthy,
      errorResult, roundTo_zero, h0]

/-- C8 amended: whenever the engine call raises, the evaluator cannot be
initialized, or the extracted score dict lacks the relevance score, the
result is the all-null/error form (all numeric fields `null`,
`metrics_used` empty, `error` a non-null message) and, the embedding
being total, nothing is raised past this boundary; when the engine's
result-object conversion fails entirely, however, a default relevance of
`0.0` is reported in the success shape with `error` absent. -/
theorem C8_error_form (prompt response : String)
    (context ground_truth : Option String) :
    (∀ msg, RAGASEvaluator.evaluate_response prompt response context
        ground_truth (.raised msg) = errorResult msg) ∧
    (∀ ie engine, evaluate_response (.error ie) prompt response context
        ground_truth engine =
      errorResult ("Evaluator initialization failed: " ++ ie)) ∧
    (∀ d, d.lookup "answer_relevancy" = none →
      RAGASEvaluator.evaluate_response prompt response context ground_truth
          (.parsed d) =
        errorResult
          "RAGAS evaluation failed - no valid scores produced. Check OpenAI API key and logs.") ∧
    (∀ msg, (errorResult msg).relevance = none ∧
      (errorResult msg).coherence = none ∧
      (errorResult msg).correctness = none ∧
      (errorResult msg).context_quality = none ∧
      (errorResult msg).overall_score = none ∧
      (errorResult msg).metrics_used = [] ∧
      (errorResult msg).error = some msg) ∧
    (RAGASEvaluator.evaluate_response prompt response context ground_truth
        .unparsable).error = none := by
  refine ⟨fun msg => rfl, fun ie engine => rfl, ?_, fun msg => ?_, ?_⟩
  · intro d hd
    simp [RAGASEvaluator.evaluate_response, evalScores, hd]
  · exact ⟨rfl, rfl, rfl, rfl, rfl, rfl, rfl⟩
  · simp [RAGASEvaluator.evaluate_response, evalScores, errorResult]

/-- Witness for C8 (amended) at concrete inputs: an empty parsed dict
yields the error form. -/
theorem C8_error_form_witness :
    List.lookup "answer_relevancy" ([] : List (String × ℚ)) = none ∧
    RAGASEvaluator.evaluate_response "q" "a" none none (.parsed []) =
      errorResult
        "RAGAS evaluation failed - no valid scores produced. Check OpenAI API key and logs." :=
  ⟨rfl, (C8_error_form "q" "a" none none).2.2.1 [] rfl⟩

/-! ## `src/llms/base.py`: the generic execution wrapper -/

/-- What a call to `generate_with_logging` produces, as seen by the
caller and by the log directory: the returned value (or the propagated
exception), the log file created (if any), and whether an evaluation
block was successfully attached to it. -/
structure WrapperOutcome where
  result : Except Err String
  log_file : Option String
  evaluation_attached : Bool
deriving Repr

/-- `LLMProvider.generate_with_logging(prompt, system_prompt, ...)`
(base.py lines 86–169).  The collaborators appear as outcome
parameters: `gen` is `self.generate(...)` — called outside any `try`,
so its exception propagates and nothing afterwards runs; `usage` is
`self.get_usage_info()` and `metadata` is `self.get_metadata()`, whose
exceptions (as well as a missing `input_tokens`/`output_tokens` key in
the usage dict) are caught by the outer `except` with a warning;
`existing`/`write_ok`/`now` are the filesystem and clock inputs of
`logger.log_execution`; `eval_add` is the combined outcome of
`evaluate_response` plus `add_evaluation_metrics`, whose exception is
caught by the inner `except`.  The response text is returned whenever
generation succeeded, whatever the instrumentation did. -/
def generate_with_logging
    (enable_logging has_logger enable_evaluation : Bool)
    (model_name : String)
    (gen : Except Err String)
    (usage : Except Err (List (String × ℕ)))
    (metadata : Except Err ProviderMetadata)
    (existing : List String) (write_ok : Bool) (now : Timestamp)
    (latency : ℚ) (prompt : String) (system_prompt : Option String)
    (eval_add : Except Err Unit) :
    WrapperOutcome :=
  match gen with
  | .error e => { result := .error e, log_file := none,
                  evaluation_attached := false }
  | .ok response =>
    if enable_logging ∧ has_logger then
      match usage with
      | .error _ =>
          { result := .ok response, log_file := none,
            evaluation_attached := false }
      | .ok u =>
        match metadata with
        | .error _ =>
            { result := .ok response, log_file := none,
              evaluation_attached := false }
        | .ok md =>
          match u.lookup "input_tokens", u.lookup "output_tokens" with
          | some it, some ot =>
            let cost := calculate_cost model_name it ot
            let lf := log_execution existing write_ok now prompt
              system_prompt response md u cost latency
            if enable_evaluation ∧ lf.isSome then
              match eval_add with
              | .ok _ =>
                  { result := .ok response, log_file := lf.map Prod.fst,
                    evaluation_attached := true }
              | .error _ =>
                  { result := .ok response, log_file := lf.map Prod.fst,
                    evaluation_attached := false }
            else
              { result := .ok response, log_file := lf.map Prod.fst,
                evaluation_attached := false }
          | _, _ =>
              { result := .ok response, log_file := none,
                evaluation_attached := false }
    else
      { result := .ok response, log_file := none,
        evaluation_attached := false }

/-! ## Claim theorem: the generic execution wrapper -/

/-- C1: `generate_with_logging` hands the caller exactly what
`self.generate` produced — the generated text on success, whatever the
instrumentation chain (usage extraction, cost calculation, logging,
evaluation) did, and the very same exception on failure; and when
generation raises, no log record is created and no evaluation is
attached. -/
theorem C1_wrapper_transparent
    (enable_logging has_logger enable_evaluation : Bool)
    (model_name : String) (gen : Except Err String)
    (usage : Except Err (List (String × ℕ)))
    (metadata : Except Err ProviderMetadata)
    (existing : List String) (write_ok : Bool) (now : Timestamp)
    (latency : ℚ) (prompt : String) (system_prompt : Option String)
    (eval_add : Except Err Unit) :
    (generate_with_logging enable_logging has_logger enable_evaluation
        model_name gen usage metadata existing write_ok now latency prompt
        system_prompt eval_add).result = gen ∧
    (∀ e, gen = .error e →
      generate_with_logging enable_logging has_logger enable_evaluation
          model_name gen usage metadata existing write_ok now latency prompt
          system_prompt eval_add =
        { result := .error e, log_file := none,
          evaluation_attached := false }) := by
  constructor
  · cases gen with
    | error e => rfl
    | ok response =>
      simp only [generate_with_logging]
      repeat' split
      all_goals rfl
  · intro e he
    subst he
    rfl

/-- Witness for C1 at a concrete failed generation. -/
theorem C1_wrapper_transparent_witness :
    generate_with_logging true true true "gpt-4" (.error ⟨"boom"⟩)
        (.ok [("input_tokens", 1), ("output_tokens", 2),
          ("total_tokens", 3)])
        (.ok ⟨some "gpt-4", some "openai", none, none, none, none⟩) [] true
        ⟨2025, 1, 10, 12, 0, 0, 0⟩ 5 "q" none (.ok ()) =
      { result := .error ⟨"boom"⟩, log_file := none,
        evaluation_attached := false } :=
  (C1_wrapper_transparent true true true "gpt-4" (.error ⟨"boom"⟩)
    (.ok [("input_tokens", 1), ("output_tokens", 2), ("total_tokens", 3)])
    (.ok ⟨some "gpt-4", some "openai", none, none, none, none⟩) [] true
    ⟨2025, 1, 10, 12, 0, 0, 0⟩ 5 "q" none (.ok ())).2 ⟨"boom"⟩ rfl
